import Mathlib

/-!
Shallow embedding of the profile-creation workflow of the repository
(`src/routes/profiles.py` and `src/schemas/profiles.py`).

The route `create_user_profile` is embedded as a pure function from the
request arguments plus explicit collaborator state (database session,
object-storage client) to a result together with the updated states.
The authenticator dependency `get_current_user` is embedded separately.

Collaborators that live outside the provided source files (the `validation`
module's `validate_image`, the storage client's contract, the JWT manager)
are modelled from the spec where noted.
-/

namespace ProfileApp

/-- Gender enumeration. Modelled from the spec: `GenderEnum` lives in
`database.models.accounts`, which is not among the provided source files;
the spec describes it as an enumerated set such as unspecified/male/female/other,
with the exact set defined by the collaborator.  The workflow only passes the
value through, so any fixed inductive with these members is faithful. -/
inductive GenderEnum where
  | unspecified
  | male
  | female
  | other
  deriving DecidableEq, Repr

/-- A user row, as read by this workflow: identifier, permission group
identifier, activity flag (`UserModel` fields used in `profiles.py`). -/
structure UserModel where
  id : Nat
  group_id : Nat
  is_active : Bool
  deriving DecidableEq, Repr

/-- A calendar date, the result of `datetime.strptime(s, "%Y-%m-%d").date()`. -/
structure ProfileDate where
  year : Nat
  month : Nat
  day : Nat
  deriving DecidableEq, Repr

/-- A profile row (`UserProfileModel` fields used in `profiles.py`). -/
structure UserProfileModel where
  id : Nat
  user_id : Nat
  first_name : String
  last_name : String
  gender : GenderEnum
  date_of_birth : ProfileDate
  avatar : String
  info : Option String
  deriving DecidableEq, Repr

/-- The outward-facing view returned on success
(`UserProfileResponseSchema` as constructed at the end of the route). -/
structure UserProfileResponseSchema where
  id : Nat
  user_id : Nat
  first_name : String
  last_name : String
  gender : GenderEnum
  date_of_birth : ProfileDate
  info : Option String
  avatar : String
  deriving DecidableEq, Repr

/-- The database session: committed profile rows, rows added but not yet
committed (`db.add` adds to `pending`; `db.commit` moves pending rows into
`committed`; `db.rollback` discards pending rows), and the identifier the
next inserted row receives. -/
structure Session where
  committed : List UserProfileModel
  pending : List UserProfileModel
  next_id : Nat
  deriving DecidableEq, Repr

/-- The object-storage collaborator state: whether an upload succeeds
(`available = false` makes `upload_file` raise `S3FileUploadError`), and the
record of every upload call made (key and bytes), successful or not. -/
structure S3State where
  available : Bool
  upload_calls : List (String × List Nat)
  deriving DecidableEq, Repr

/-- An uploaded file as the route receives it: the client-supplied file name,
the declared content type, the declared size in bytes, and the byte content
returned by `avatar.read()`. -/
structure UploadFile where
  filename : String
  content_type : String
  size : Nat
  data : List Nat
  deriving DecidableEq, Repr

/-- The outcome of a route invocation: a success body, or an HTTP error
(`HTTPException`) with a status code and a detail message. -/
inductive RouteResult where
  | success (resp : UserProfileResponseSchema)
  | error (statusCode : Nat) (detail : String)
  deriving DecidableEq, Repr

/-- Characters removed by Python's `str.strip()` (whitespace). -/
def isSpaceChar (c : Char) : Bool :=
  c == ' ' || c == '\t' || c == '\n' || c == '\r' || c == '\x0b' || c == '\x0c'

/-- Embedding of Python's `str.strip()` on the character list: drop leading and
trailing whitespace. -/
def pyStripChars (l : List Char) : List Char :=
  ((l.dropWhile isSpaceChar).reverse.dropWhile isSpaceChar).reverse

/-- Embedding of Python's `str.strip()`. -/
def pyStrip (s : String) : String := String.mk (pyStripChars s.data)

/-- Embedding of Python's `str.lower()` on one character (ASCII case map;
the repository only documents ASCII name data). -/
def pyLowerChar (c : Char) : Char :=
  if 65 ≤ c.toNat ∧ c.toNat ≤ 90 then Char.ofNat (c.toNat + 32) else c

/-- Embedding of Python's `str.lower()`. -/
def pyLower (s : String) : String := String.mk (s.data.map pyLowerChar)

/-- Split a character list on the dash separator, as `%Y-%m-%d` parsing does. -/
def splitDash (l : List Char) : List (List Char) :=
  match l with
  | [] => [[]]
  | c :: rest =>
    if c == '-' then [] :: splitDash rest
    else
      match splitDash rest with
      | [] => [[c]]
      | h :: t => (c :: h) :: t

/-- Read a nonempty all-digit character list as a decimal number, as the
`strptime` field conversion does; `none` on any other list. -/
def digitsToNat? (l : List Char) : Option Nat :=
  if l ≠ [] ∧ l.all Char.isDigit then
    some (l.foldl (fun a c => a * 10 + (c.toNat - 48)) 0)
  else none

/-- Gregorian leap-year rule, as enforced by Python's `datetime.date`. -/
def isLeapYear (y : Nat) : Bool :=
  (y % 4 == 0 && y % 100 != 0) || y % 400 == 0

/-- Number of days in a month, as enforced by Python's `datetime.date`. -/
def daysInMonth (y m : Nat) : Nat :=
  if m == 2 then (if isLeapYear y then 29 else 28)
  else if m == 4 || m == 6 || m == 9 || m == 11 then 30
  else 31

/-- Embedding of `datetime.strptime(s, "%Y-%m-%d").date()`: three dash-separated
decimal components forming a valid calendar date (year 1..9999); `none` models
the `ValueError` raised on any other input. -/
def parseDate (s : String) : Option ProfileDate :=
  match splitDash s.data with
  | [ys, ms, ds] =>
    match digitsToNat? ys, digitsToNat? ms, digitsToNat? ds with
    | some y, some m, some d =>
      if 1 ≤ y && y ≤ 9999 && 1 ≤ m && m ≤ 12 && 1 ≤ d && d ≤ daysInMonth y m then
        some ⟨y, m, d⟩
      else none
    | _, _, _ => none
  | _ => none

/-- Accepted avatar content types. Modelled from the spec: part of the
`validate_image` policy in the repository's `validation` module, which is not
among the provided source files. -/
def ACCEPTED_IMAGE_TYPES : List String := ["image/jpeg", "image/png"]

/-- Maximum avatar size in bytes (5 MB policy value). Modelled from the spec. -/
def MAX_AVATAR_SIZE : Nat := 5 * 1024 * 1024

/-- Modelled from the spec: `validate_image` lives in the repository's
`validation` module, which is not among the provided source files.  Per the
spec it inspects the declared content type and size and fails with a
validation error (a `ValueError` the route converts to HTTP 422) if the file
is not an accepted image type or exceeds a maximum byte size; otherwise it
succeeds without consuming the byte stream. -/
def validate_image (f : UploadFile) : Except String Unit :=
  if ¬ (ACCEPTED_IMAGE_TYPES.contains f.content_type) then
    Except.error "Invalid image format"
  else if f.size > MAX_AVATAR_SIZE then
    Except.error "Image size exceeds the maximum allowed"
  else
    Except.ok ()

/-- The avatar storage key built by the route:
the f-string `avatars/{user_id}_avatar.jpg`. -/
def AVATAR_KEY (user_id : Nat) : String :=
  "avatars/" ++ toString user_id ++ "_avatar.jpg"

/-- Modelled from the spec: the storage collaborator's
`getUrl(key) -> string` contract (`s3_client.get_file_url`); the spec gives
it no failure mode, so it is total. -/
def get_file_url (file_name : String) : String :=
  "https://storage.example.com/" ++ file_name

/-- Embedding of the route `create_user_profile` in `src/routes/profiles.py`
(lines 73-149), after the authenticator dependency has produced
`current_user`.  Returns the HTTP outcome together with the final database
session and storage state. -/
def create_user_profile (current_user : UserModel) (user_id : Nat)
    (first_name last_name : String) (gender : GenderEnum)
    (date_of_birth : String) (info : String) (avatar : UploadFile)
    (db : Session) (s3 : S3State) : RouteResult × Session × S3State :=
  if current_user.id ≠ user_id ∧ current_user.group_id ≠ 3 then
    (RouteResult.error 403 "You don\x27t have permission to edit this profile.", db, s3)
  else
    match (db.committed ++ db.pending).find? (fun p => p.user_id == user_id) with
    | some _ => (RouteResult.error 400 "User already has a profile.", db, s3)
    | none =>
      match validate_image avatar with
      | Except.error e => (RouteResult.error 422 e, db, s3)
      | Except.ok _ =>
        match parseDate date_of_birth with
        | none =>
          (RouteResult.error 422 "Invalid date format. Use YYYY-MM-DD.", db, s3)
        | some date_of_birth_obj =>
          let profile : UserProfileModel :=
            { id := db.next_id
              user_id := user_id
              first_name := pyLower (pyStrip first_name)
              last_name := pyLower (pyStrip last_name)
              gender := gender
              date_of_birth := date_of_birth_obj
              avatar := AVATAR_KEY user_id
              info := if pyStrip info = "" then none else some (pyStrip info) }
          let db1 : Session := { db with pending := db.pending ++ [profile] }
          let s3a : S3State :=
            { s3 with upload_calls := s3.upload_calls ++ [(profile.avatar, avatar.data)] }
          if s3.available then
            let db2 : Session :=
              { committed := db1.committed ++ db1.pending
                pending := []
                next_id := db1.next_id + 1 }
            (RouteResult.success
              { id := profile.id
                user_id := profile.user_id
                first_name := profile.first_name
                last_name := profile.last_name
                gender := profile.gender
                date_of_birth := profile.date_of_birth
                info := profile.info
                avatar := get_file_url profile.avatar }, db2, s3a)
          else
            (RouteResult.error 500 "Failed to upload avatar. Please try again later.",
              { db1 with pending := [] }, s3a)

/-- Outcome of the JWT manager's `decode_access_token`: a payload whose
`user_id` entry may be absent, or a `TokenExpiredError` / `InvalidTokenError`. -/
inductive DecodeResult where
  | ok (user_id : Option Nat)
  | expired
  | invalid

/-- Embedding of the dependency `get_current_user` in `src/routes/profiles.py`
(lines 30-64).  `token` is the credential produced by `get_token` (absent or a
string; Python's `if not token` also treats the empty string as missing);
`decode_access_token` is the JWT-manager collaborator; `users` is the user
table queried by id.  Errors carry the HTTP status code and detail. -/
def get_current_user (token : Option String)
    (decode_access_token : String → DecodeResult)
    (users : List UserModel) : Except (Nat × String) UserModel :=
  match token with
  | none => Except.error (401, "Token missing")
  | some t =>
    if t = "" then Except.error (401, "Token missing")
    else
      match decode_access_token t with
      | DecodeResult.expired => Except.error (401, "Token has expired.")
      | DecodeResult.invalid => Except.error (401, "Invalid token")
      | DecodeResult.ok none => Except.error (401, "User not found or not active.")
      | DecodeResult.ok (some uid) =>
        match users.find? (fun u => u.id == uid) with
        | none => Except.error (401, "User not found or not active.")
        | some current_user =>
          if current_user.is_active then Except.ok current_user
          else Except.error (401, "User not found or not active.")


/-! ## Helper lemmas shared by several claim theorems -/

/-- A successful invocation leaves no pending rows and commits a profile row
owned by the target user. -/
theorem create_success_adds_row (cu : UserModel) (uid : Nat) (fn ln : String)
    (g : GenderEnum) (dob inf : String) (av : UploadFile) (db : Session) (s3 : S3State)
    (resp : UserProfileResponseSchema) (db2 : Session) (s3b : S3State)
    (h : create_user_profile cu uid fn ln g dob inf av db s3 =
      (RouteResult.success resp, db2, s3b)) :
    db2.pending = [] ∧ ∃ p ∈ db2.committed, p.user_id = uid := by
  by_cases hauth : cu.id ≠ uid ∧ cu.group_id ≠ 3
  · simp [create_user_profile, hauth] at h
  · cases hfind : (db.committed ++ db.pending).find? (fun p => p.user_id == uid) with
    | some p => simp [create_user_profile, hauth, hfind] at h
    | none =>
      cases himg : validate_image av with
      | error e => simp [create_user_profile, hauth, hfind, himg] at h
      | ok u =>
        cases hdate : parseDate dob with
        | none => simp [create_user_profile, hauth, hfind, himg, hdate] at h
        | some dobj =>
          cases havail : s3.available with
          | false => simp [create_user_profile, hauth, hfind, himg, hdate, havail] at h
          | true =>
            simp [create_user_profile, hauth, hfind, himg, hdate, havail, Prod.ext_iff] at h
            obtain ⟨h1, h2, h3⟩ := h
            refine ⟨?_, ?_⟩
            · rw [← h2]
            · rw [← h2]
              exact ⟨_, List.mem_append_right _
                (List.mem_append_right _ (List.mem_singleton_self _)), rfl⟩

/-- On a successful invocation, the response carries the normalized names, the
target user id and the trimmed-or-null info, and a committed row matches it. -/
theorem create_success_shape (cu : UserModel) (uid : Nat) (fn ln : String)
    (g : GenderEnum) (dob inf : String) (av : UploadFile) (db : Session) (s3 : S3State)
    (resp : UserProfileResponseSchema)
    (h : (create_user_profile cu uid fn ln g dob inf av db s3).1 =
      RouteResult.success resp) :
    resp.first_name = pyLower (pyStrip fn) ∧ resp.last_name = pyLower (pyStrip ln) ∧
    resp.user_id = uid ∧
    resp.info = (if pyStrip inf = "" then none else some (pyStrip inf)) ∧
    ∃ p ∈ (create_user_profile cu uid fn ln g dob inf av db s3).2.1.committed,
      p.user_id = uid ∧ p.first_name = pyLower (pyStrip fn) ∧
      p.last_name = pyLower (pyStrip ln) ∧ p.info = resp.info ∧
      p.avatar = AVATAR_KEY uid := by
  by_cases hauth : cu.id ≠ uid ∧ cu.group_id ≠ 3
  · simp [create_user_profile, hauth] at h
  · cases hfind : (db.committed ++ db.pending).find? (fun p => p.user_id == uid) with
    | some p => simp [create_user_profile, hauth, hfind] at h
    | none =>
      cases himg : validate_image av with
      | error e => simp [create_user_profile, hauth, hfind, himg] at h
      | ok u =>
        cases hdate : parseDate dob with
        | none => simp [create_user_profile, hauth, hfind, himg, hdate] at h
        | some dobj =>
          cases havail : s3.available with
          | false => simp [create_user_profile, hauth, hfind, himg, hdate, havail] at h
          | true =>
            simp [create_user_profile, hauth, hfind, himg, hdate, havail] at h
            subst h
            refine ⟨rfl, rfl, rfl, rfl, ?_⟩
            simp only [create_user_profile, hauth, hfind, himg, hdate, havail,
              if_neg hauth]
            exact ⟨_, List.mem_append_right _
              (List.mem_append_right _ (List.mem_singleton_self _)),
              rfl, rfl, rfl, rfl, rfl⟩

/-! ## Claim theorems -/

/-- C1: for every invocation in which the storage upload fails (the workflow
reports HTTP 500), the pending insert is rolled back before the error is
reported: afterwards the committed rows are exactly the initial ones, no
pending row survives, and no Profile row for the target user exists. -/
theorem c1_storage_failure_rolls_back (cu : UserModel) (uid : Nat) (fn ln : String)
    (g : GenderEnum) (dob inf : String) (av : UploadFile) (db : Session) (s3 : S3State)
    (h500 : (create_user_profile cu uid fn ln g dob inf av db s3).1 =
      RouteResult.error 500 "Failed to upload avatar. Please try again later.") :
    (create_user_profile cu uid fn ln g dob inf av db s3).2.1 =
      { committed := db.committed, pending := [], next_id := db.next_id } ∧
    ∀ p ∈ (create_user_profile cu uid fn ln g dob inf av db s3).2.1.committed,
      p.user_id ≠ uid := by
  by_cases hauth : cu.id ≠ uid ∧ cu.group_id ≠ 3
  · simp [create_user_profile, hauth] at h500
  · cases hfind : (db.committed ++ db.pending).find? (fun p => p.user_id == uid) with
    | some p => simp [create_user_profile, hauth, hfind] at h500
    | none =>
      cases himg : validate_image av with
      | error e => simp [create_user_profile, hauth, hfind, himg] at h500
      | ok u =>
        cases hdate : parseDate dob with
        | none => simp [create_user_profile, hauth, hfind, himg, hdate] at h500
        | some dobj =>
          cases havail : s3.available with
          | true => simp [create_user_profile, hauth, hfind, himg, hdate, havail] at h500
          | false =>
            refine ⟨?_, ?_⟩
            · simp [create_user_profile, hauth, hfind, himg, hdate, havail]
            · intro p hp
              simp [create_user_profile, hauth, hfind, himg, hdate, havail] at hp
              have hnp := List.find?_eq_none.mp hfind p (List.mem_append_left _ hp)
              simpa using hnp

/-- C1 witness: with an unavailable storage client and otherwise valid input
the route reports 500, and the database afterwards equals the initial empty
one, holding no row for user 7. -/
theorem c1_storage_failure_rolls_back_witness :
    (create_user_profile ⟨7, 1, true⟩ 7 "Ada" "Lovelace" GenderEnum.female "1990-05-01" "bio"
        ⟨"a.jpg", "image/jpeg", 100, [1, 2]⟩ ⟨[], [], 1⟩ ⟨false, []⟩).1 =
      RouteResult.error 500 "Failed to upload avatar. Please try again later." ∧
    ((create_user_profile ⟨7, 1, true⟩ 7 "Ada" "Lovelace" GenderEnum.female "1990-05-01" "bio"
        ⟨"a.jpg", "image/jpeg", 100, [1, 2]⟩ ⟨[], [], 1⟩ ⟨false, []⟩).2.1 =
      { committed := [], pending := [], next_id := 1 } ∧
    ∀ p ∈ (create_user_profile ⟨7, 1, true⟩ 7 "Ada" "Lovelace" GenderEnum.female "1990-05-01"
        "bio" ⟨"a.jpg", "image/jpeg", 100, [1, 2]⟩ ⟨[], [], 1⟩ ⟨false, []⟩).2.1.committed,
      p.user_id ≠ 7) :=
  ⟨by decide,
   c1_storage_failure_rolls_back ⟨7, 1, true⟩ 7 "Ada" "Lovelace" GenderEnum.female "1990-05-01"
     "bio" ⟨"a.jpg", "image/jpeg", 100, [1, 2]⟩ ⟨[], [], 1⟩ ⟨false, []⟩ (by decide)⟩

/-- C2: the claim says a future `date_of_birth` yields HTTP 422 with nothing
persisted; the route, however, never compares the parsed date with the current
date (it only checks the `YYYY-MM-DD` format), so the future date 2100-01-01
is accepted: the call succeeds and the profile row is committed. -/
theorem c2_future_birth_date_accepted_bug :
    (create_user_profile ⟨7, 1, true⟩ 7 "Ada" "Lovelace" GenderEnum.female "2100-01-01" "bio"
        ⟨"a.jpg", "image/jpeg", 100, [1, 2]⟩ ⟨[], [], 1⟩ ⟨true, []⟩).1 =
      RouteResult.success ⟨1, 7, "ada", "lovelace", GenderEnum.female, ⟨2100, 1, 1⟩,
        some "bio", "https://storage.example.com/avatars/7_avatar.jpg"⟩ ∧
    (create_user_profile ⟨7, 1, true⟩ 7 "Ada" "Lovelace" GenderEnum.female "2100-01-01" "bio"
        ⟨"a.jpg", "image/jpeg", 100, [1, 2]⟩ ⟨[], [], 1⟩ ⟨true, []⟩).2.1.committed =
      [⟨1, 7, "ada", "lovelace", GenderEnum.female, ⟨2100, 1, 1⟩,
        "avatars/7_avatar.jpg", some "bio"⟩] := by
  decide

/-- C3: the claim says a first name that is empty after trimming yields HTTP
422 before any entity is built; the route, however, never runs the name
validators (`UserProfileRequestSchema` is unused), so a whitespace-only first
name is accepted: the call succeeds and a row with an empty first name is
committed. -/
theorem c3_empty_name_accepted_bug :
    (create_user_profile ⟨7, 1, true⟩ 7 "   " "Lovelace" GenderEnum.female "1990-05-01" "bio"
        ⟨"a.jpg", "image/jpeg", 100, [1, 2]⟩ ⟨[], [], 1⟩ ⟨true, []⟩).1 =
      RouteResult.success ⟨1, 7, "", "lovelace", GenderEnum.female, ⟨1990, 5, 1⟩,
        some "bio", "https://storage.example.com/avatars/7_avatar.jpg"⟩ ∧
    (create_user_profile ⟨7, 1, true⟩ 7 "   " "Lovelace" GenderEnum.female "1990-05-01" "bio"
        ⟨"a.jpg", "image/jpeg", 100, [1, 2]⟩ ⟨[], [], 1⟩ ⟨true, []⟩).2.1.committed =
      [⟨1, 7, "", "lovelace", GenderEnum.female, ⟨1990, 5, 1⟩,
        "avatars/7_avatar.jpg", some "bio"⟩] := by
  decide

/-- C4: the invocation proceeds past the authorization gate if and only if the
acting user's id equals the target user id or the acting user is in the
elevated permission group (group id 3); otherwise it fails with HTTP 403 and
both collaborator states are left untouched. -/
theorem c4_authorization_gate (cu : UserModel) (uid : Nat) (fn ln : String)
    (g : GenderEnum) (dob inf : String) (av : UploadFile) (db : Session) (s3 : S3State) :
    (cu.id ≠ uid ∧ cu.group_id ≠ 3 →
      create_user_profile cu uid fn ln g dob inf av db s3 =
        (RouteResult.error 403 "You don\x27t have permission to edit this profile.", db, s3)) ∧
    (cu.id = uid ∨ cu.group_id = 3 →
      ∀ d : String, (create_user_profile cu uid fn ln g dob inf av db s3).1 ≠
        RouteResult.error 403 d) := by
  constructor
  · intro h
    simp [create_user_profile, h]
  · intro h d
    have hcond : ¬ (cu.id ≠ uid ∧ cu.group_id ≠ 3) := by tauto
    simp only [create_user_profile, if_neg hcond]
    split
    · simp
    · split
      · simp
      · split
        · simp
        · split
          · simp
          · simp

/-- C4 witness: user 7 in a non-elevated group targeting user 8 receives 403
with untouched state; the same user targeting itself never receives 403. -/
theorem c4_authorization_gate_witness :
    (create_user_profile ⟨7, 1, true⟩ 8 "Ada" "Lovelace" GenderEnum.female "1990-05-01" "bio"
        ⟨"a.jpg", "image/jpeg", 100, [1, 2]⟩ ⟨[], [], 1⟩ ⟨true, []⟩ =
      (RouteResult.error 403 "You don\x27t have permission to edit this profile.",
        ⟨[], [], 1⟩, ⟨true, []⟩)) ∧
    ∀ d : String,
      (create_user_profile ⟨7, 1, true⟩ 7 "Ada" "Lovelace" GenderEnum.female "1990-05-01" "bio"
          ⟨"a.jpg", "image/jpeg", 100, [1, 2]⟩ ⟨[], [], 1⟩ ⟨true, []⟩).1 ≠
        RouteResult.error 403 d :=
  ⟨(c4_authorization_gate ⟨7, 1, true⟩ 8 "Ada" "Lovelace" GenderEnum.female "1990-05-01" "bio"
      ⟨"a.jpg", "image/jpeg", 100, [1, 2]⟩ ⟨[], [], 1⟩ ⟨true, []⟩).1 (by decide),
   (c4_authorization_gate ⟨7, 1, true⟩ 7 "Ada" "Lovelace" GenderEnum.female "1990-05-01" "bio"
      ⟨"a.jpg", "image/jpeg", 100, [1, 2]⟩ ⟨[], [], 1⟩ ⟨true, []⟩).2 (Or.inl rfl)⟩

/-- C5: if a profile owned by the target user already exists, the invocation
fails with HTTP 400 and both states are untouched (no second row); and after
any successful invocation, repeating a request for the same user fails with
HTTP 400, again leaving the states untouched. -/
theorem c5_duplicate_profile_conflict (cu : UserModel) (uid : Nat) (fn ln : String)
    (g : GenderEnum) (dob inf : String) (av : UploadFile) (db : Session) (s3 : S3State)
    (hauth : cu.id = uid ∨ cu.group_id = 3) :
    ((∃ p ∈ db.committed ++ db.pending, p.user_id = uid) →
      create_user_profile cu uid fn ln g dob inf av db s3 =
        (RouteResult.error 400 "User already has a profile.", db, s3)) ∧
    (∀ resp db2 s3b,
      create_user_profile cu uid fn ln g dob inf av db s3 =
        (RouteResult.success resp, db2, s3b) →
      ∀ fn2 ln2 g2 dob2 inf2 av2,
        create_user_profile cu uid fn2 ln2 g2 dob2 inf2 av2 db2 s3b =
          (RouteResult.error 400 "User already has a profile.", db2, s3b)) := by
  have hcond : ¬ (cu.id ≠ uid ∧ cu.group_id ≠ 3) := by tauto
  constructor
  · rintro ⟨p, hp, hpu⟩
    have hsome : ((db.committed ++ db.pending).find? (fun q => q.user_id == uid)).isSome :=
      List.find?_isSome.mpr ⟨p, hp, by simp [hpu]⟩
    cases hfind : (db.committed ++ db.pending).find? (fun q => q.user_id == uid) with
    | none => rw [hfind] at hsome; simp at hsome
    | some q => simp [create_user_profile, hcond, hfind]
  · intro resp db2 s3b h fn2 ln2 g2 dob2 inf2 av2
    obtain ⟨hpend, prow, hprow, hprowid⟩ :=
      create_success_adds_row cu uid fn ln g dob inf av db s3 resp db2 s3b h
    have hsome : ((db2.committed ++ db2.pending).find? (fun q => q.user_id == uid)).isSome :=
      List.find?_isSome.mpr ⟨prow, List.mem_append_left _ hprow, by simp [hprowid]⟩
    cases hfind : (db2.committed ++ db2.pending).find? (fun q => q.user_id == uid) with
    | none => rw [hfind] at hsome; simp at hsome
    | some q => simp [create_user_profile, hcond, hfind]

/-- C5 witness: with a profile for user 7 already committed, the call for
user 7 returns 400 and changes nothing. -/
theorem c5_duplicate_profile_conflict_witness :
    create_user_profile ⟨7, 1, true⟩ 7 "Ada" "Lovelace" GenderEnum.female "1990-05-01" "bio"
        ⟨"a.jpg", "image/jpeg", 100, [1, 2]⟩
        ⟨[⟨1, 7, "ada", "lovelace", GenderEnum.female, ⟨1990, 5, 1⟩,
          "avatars/7_avatar.jpg", none⟩], [], 2⟩ ⟨true, []⟩ =
      (RouteResult.error 400 "User already has a profile.",
        ⟨[⟨1, 7, "ada", "lovelace", GenderEnum.female, ⟨1990, 5, 1⟩,
          "avatars/7_avatar.jpg", none⟩], [], 2⟩, ⟨true, []⟩) :=
  (c5_duplicate_profile_conflict ⟨7, 1, true⟩ 7 "Ada" "Lovelace" GenderEnum.female "1990-05-01"
      "bio" ⟨"a.jpg", "image/jpeg", 100, [1, 2]⟩
      ⟨[⟨1, 7, "ada", "lovelace", GenderEnum.female, ⟨1990, 5, 1⟩,
        "avatars/7_avatar.jpg", none⟩], [], 2⟩ ⟨true, []⟩ (Or.inl rfl)).1
    ⟨⟨1, 7, "ada", "lovelace", GenderEnum.female, ⟨1990, 5, 1⟩,
      "avatars/7_avatar.jpg", none⟩, by simp, rfl⟩

/-- C6: past the authorization and duplicate gates, an avatar whose declared
content type is not an accepted image type or whose declared size exceeds the
maximum fails with HTTP 422, leaving the database and the storage state
untouched — in particular no upload call is made. -/
theorem c6_invalid_avatar_rejected_before_upload (cu : UserModel) (uid : Nat)
    (fn ln : String) (g : GenderEnum) (dob inf : String) (av : UploadFile)
    (db : Session) (s3 : S3State)
    (hauth : cu.id = uid ∨ cu.group_id = 3)
    (hnodup : ∀ p ∈ db.committed ++ db.pending, p.user_id ≠ uid)
    (hbad : ¬ ACCEPTED_IMAGE_TYPES.contains av.content_type ∨ MAX_AVATAR_SIZE < av.size) :
    ∃ e, create_user_profile cu uid fn ln g dob inf av db s3 =
      (RouteResult.error 422 e, db, s3) := by
  have hcond : ¬ (cu.id ≠ uid ∧ cu.group_id ≠ 3) := by tauto
  have hfind : (db.committed ++ db.pending).find? (fun p => p.user_id == uid) = none := by
    rw [List.find?_eq_none]
    intro p hp
    simpa using hnodup p hp
  have himgbad : ∃ e, validate_image av = Except.error e := by
    rcases hbad with hty | hsz
    · refine ⟨"Invalid image format", ?_⟩
      unfold validate_image
      rw [if_pos hty]
    · by_cases hty : ACCEPTED_IMAGE_TYPES.contains av.content_type
      · refine ⟨"Image size exceeds the maximum allowed", ?_⟩
        unfold validate_image
        rw [if_neg (not_not_intro hty), if_pos hsz]
      · refine ⟨"Invalid image format", ?_⟩
        unfold validate_image
        rw [if_pos hty]
  obtain ⟨e, he⟩ := himgbad
  exact ⟨e, by simp [create_user_profile, hcond, hfind, he]⟩

/-- C6 witness: a text file avatar for user 7 yields 422 with untouched
database and storage state (no upload call recorded). -/
theorem c6_invalid_avatar_rejected_before_upload_witness :
    ∃ e, create_user_profile ⟨7, 1, true⟩ 7 "Ada" "Lovelace" GenderEnum.female "1990-05-01"
        "bio" ⟨"a.txt", "text/plain", 100, [1]⟩ ⟨[], [], 1⟩ ⟨true, []⟩ =
      (RouteResult.error 422 e, ⟨[], [], 1⟩, ⟨true, []⟩) :=
  c6_invalid_avatar_rejected_before_upload ⟨7, 1, true⟩ 7 "Ada" "Lovelace" GenderEnum.female
    "1990-05-01" "bio" ⟨"a.txt", "text/plain", 100, [1]⟩ ⟨[], [], 1⟩ ⟨true, []⟩
    (Or.inl rfl) (by simp) (Or.inl (by decide))

/-- C7: on every successful invocation, both the returned view and the
committed row carry the submitted names normalized by trimming surrounding
whitespace and lower-casing. -/
theorem c7_names_normalized (cu : UserModel) (uid : Nat) (fn ln : String)
    (g : GenderEnum) (dob inf : String) (av : UploadFile) (db : Session) (s3 : S3State)
    (resp : UserProfileResponseSchema)
    (h : (create_user_profile cu uid fn ln g dob inf av db s3).1 =
      RouteResult.success resp) :
    resp.first_name = pyLower (pyStrip fn) ∧ resp.last_name = pyLower (pyStrip ln) ∧
    ∃ p ∈ (create_user_profile cu uid fn ln g dob inf av db s3).2.1.committed,
      p.user_id = uid ∧ p.first_name = pyLower (pyStrip fn) ∧
      p.last_name = pyLower (pyStrip ln) := by
  obtain ⟨h1, h2, h3, h4, p, hp, hp1, hp2, hp3, hp4, hp5⟩ :=
    create_success_shape cu uid fn ln g dob inf av db s3 resp h
  exact ⟨h1, h2, p, hp, hp1, hp2, hp3⟩

/-- C7 witness: submitting first name "Ada " and last name "Lovelace" for
user 7 succeeds with names "ada" and "lovelace" in the response, and the
committed row matches. -/
theorem c7_names_normalized_witness :
    ((⟨1, 7, "ada", "lovelace", GenderEnum.female, ⟨1990, 5, 1⟩, some "bio",
        "https://storage.example.com/avatars/7_avatar.jpg"⟩ :
      UserProfileResponseSchema).first_name = pyLower (pyStrip "Ada ")) ∧
    ((⟨1, 7, "ada", "lovelace", GenderEnum.female, ⟨1990, 5, 1⟩, some "bio",
        "https://storage.example.com/avatars/7_avatar.jpg"⟩ :
      UserProfileResponseSchema).last_name = pyLower (pyStrip "Lovelace")) ∧
    ∃ p ∈ (create_user_profile ⟨7, 1, true⟩ 7 "Ada " "Lovelace" GenderEnum.female "1990-05-01"
        "bio" ⟨"a.jpg", "image/jpeg", 100, [1, 2]⟩ ⟨[], [], 1⟩ ⟨true, []⟩).2.1.committed,
      p.user_id = 7 ∧ p.first_name = pyLower (pyStrip "Ada ") ∧
      p.last_name = pyLower (pyStrip "Lovelace") :=
  c7_names_normalized ⟨7, 1, true⟩ 7 "Ada " "Lovelace" GenderEnum.female "1990-05-01" "bio"
    ⟨"a.jpg", "image/jpeg", 100, [1, 2]⟩ ⟨[], [], 1⟩ ⟨true, []⟩
    ⟨1, 7, "ada", "lovelace", GenderEnum.female, ⟨1990, 5, 1⟩, some "bio",
      "https://storage.example.com/avatars/7_avatar.jpg"⟩ (by decide)

/-- C8: the avatar storage key is deterministic in the target user id: the
invocation result does not depend on the client-supplied file name, every
upload call this invocation adds uses the key `avatars/{user_id}_avatar.jpg`,
and every committed row this invocation adds carries that key as its avatar
reference. -/
theorem c8_avatar_key_deterministic (cu : UserModel) (uid : Nat) (fn ln : String)
    (g : GenderEnum) (dob inf : String) (av : UploadFile) (db : Session) (s3 : S3State) :
    (∀ n₁ n₂ : String,
      create_user_profile cu uid fn ln g dob inf
          { av with filename := n₁ } db s3 =
        create_user_profile cu uid fn ln g dob inf
          { av with filename := n₂ } db s3) ∧
    (∀ call ∈ (create_user_profile cu uid fn ln g dob inf av db s3).2.2.upload_calls,
      call ∈ s3.upload_calls ∨ call.1 = AVATAR_KEY uid) ∧
    (∀ p ∈ (create_user_profile cu uid fn ln g dob inf av db s3).2.1.committed,
      p ∈ db.committed ++ db.pending ∨ p.avatar = AVATAR_KEY uid) := by
  refine ⟨?_, ?_, ?_⟩
  · intro n₁ n₂
    cases av
    rfl
  · intro call hcall
    by_cases hauth : cu.id ≠ uid ∧ cu.group_id ≠ 3
    · simp [create_user_profile, hauth] at hcall
      exact Or.inl hcall
    · cases hfind : (db.committed ++ db.pending).find? (fun p => p.user_id == uid) with
      | some p =>
        simp [create_user_profile, hauth, hfind] at hcall
        exact Or.inl hcall
      | none =>
        cases himg : validate_image av with
        | error e =>
          simp [create_user_profile, hauth, hfind, himg] at hcall
          exact Or.inl hcall
        | ok u =>
          cases hdate : parseDate dob with
          | none =>
            simp [create_user_profile, hauth, hfind, himg, hdate] at hcall
            exact Or.inl hcall
          | some dobj =>
            cases havail : s3.available with
            | false =>
              simp [create_user_profile, hauth, hfind, himg, hdate, havail] at hcall
              rcases hcall with hmem | hkey
              · exact Or.inl hmem
              · right
                rw [hkey]
            | true =>
              simp [create_user_profile, hauth, hfind, himg, hdate, havail] at hcall
              rcases hcall with hmem | hkey
              · exact Or.inl hmem
              · right
                rw [hkey]
  · intro p hp
    by_cases hauth : cu.id ≠ uid ∧ cu.group_id ≠ 3
    · simp [create_user_profile, hauth] at hp
      exact Or.inl (List.mem_append_left _ hp)
    · cases hfind : (db.committed ++ db.pending).find? (fun q => q.user_id == uid) with
      | some q =>
        simp [create_user_profile, hauth, hfind] at hp
        exact Or.inl (List.mem_append_left _ hp)
      | none =>
        cases himg : validate_image av with
        | error e =>
          simp [create_user_profile, hauth, hfind, himg] at hp
          exact Or.inl (List.mem_append_left _ hp)
        | ok u =>
          cases hdate : parseDate dob with
          | none =>
            simp [create_user_profile, hauth, hfind, himg, hdate] at hp
            exact Or.inl (List.mem_append_left _ hp)
          | some dobj =>
            cases havail : s3.available with
            | false =>
              simp [create_user_profile, hauth, hfind, himg, hdate, havail] at hp
              exact Or.inl (List.mem_append_left _ hp)
            | true =>
              simp [create_user_profile, hauth, hfind, himg, hdate, havail] at hp
              rcases hp with hmem | hnew
              · exact Or.inl (List.mem_append_left _ hmem)
              · rcases hnew with hmem | hnew
                · exact Or.inl (List.mem_append_right _ hmem)
                · right
                  rw [hnew]

/-- C8 witness: two invocations for user 7 that differ only in the uploaded
file's client-supplied name produce identical results, and the concrete upload
call and committed row both use the key `avatars/7_avatar.jpg`. -/
theorem c8_avatar_key_deterministic_witness :
    (create_user_profile ⟨7, 1, true⟩ 7 "Ada" "Lovelace" GenderEnum.female "1990-05-01" "bio"
        ⟨"evil.png", "image/jpeg", 100, [1, 2]⟩ ⟨[], [], 1⟩ ⟨true, []⟩ =
      create_user_profile ⟨7, 1, true⟩ 7 "Ada" "Lovelace" GenderEnum.female "1990-05-01" "bio"
        ⟨"../../etc/passwd", "image/jpeg", 100, [1, 2]⟩ ⟨[], [], 1⟩ ⟨true, []⟩) ∧
    ((("avatars/7_avatar.jpg", [1, 2]) ∈ (⟨true, []⟩ : S3State).upload_calls) ∨
      ("avatars/7_avatar.jpg", ([1, 2] : List Nat)).1 = AVATAR_KEY 7) :=
  ⟨(c8_avatar_key_deterministic ⟨7, 1, true⟩ 7 "Ada" "Lovelace" GenderEnum.female "1990-05-01"
      "bio" ⟨"x", "image/jpeg", 100, [1, 2]⟩ ⟨[], [], 1⟩ ⟨true, []⟩).1
      "evil.png" "../../etc/passwd",
   (c8_avatar_key_deterministic ⟨7, 1, true⟩ 7 "Ada" "Lovelace" GenderEnum.female "1990-05-01"
      "bio" ⟨"x", "image/jpeg", 100, [1, 2]⟩ ⟨[], [], 1⟩ ⟨true, []⟩).2.1
      ("avatars/7_avatar.jpg", [1, 2]) (by decide)⟩

/-- C9: the authenticator returns a user exactly when a (nonempty) token is
present, it decodes without expiry or invalidity to a payload holding a user
id, and that id resolves to an existing active user; every failure carries
HTTP status 401 and one of the four credential-failure messages. -/
theorem c9_authenticator_resolution (token : Option String)
    (decode : String → DecodeResult) (users : List UserModel) :
    (∀ u : UserModel,
      get_current_user token decode users = Except.ok u ↔
        ∃ t uid, token = some t ∧ t ≠ "" ∧ decode t = DecodeResult.ok (some uid) ∧
          users.find? (fun x => x.id == uid) = some u ∧ u.is_active = true) ∧
    (∀ s : Nat × String,
      get_current_user token decode users = Except.error s →
        s.1 = 401 ∧ (s.2 = "Token missing" ∨ s.2 = "Token has expired." ∨
          s.2 = "Invalid token" ∨ s.2 = "User not found or not active.")) := by
  cases token with
  | none =>
    constructor
    · intro u
      simp [get_current_user]
    · intro s hs
      simp [get_current_user] at hs
      subst hs
      simp
  | some t =>
    by_cases ht : t = ""
    · subst ht
      constructor
      · intro u
        simp [get_current_user]
      · intro s hs
        simp [get_current_user] at hs
        subst hs
        simp
    · cases hdec : decode t with
      | expired =>
        constructor
        · intro u
          simp [get_current_user, ht, hdec]
        · intro s hs
          simp [get_current_user, ht, hdec] at hs
          subst hs
          simp
      | invalid =>
        constructor
        · intro u
          simp [get_current_user, ht, hdec]
        · intro s hs
          simp [get_current_user, ht, hdec] at hs
          subst hs
          simp
      | ok uo =>
        cases uo with
        | none =>
          constructor
          · intro u
            simp [get_current_user, ht, hdec]
          · intro s hs
            simp [get_current_user, ht, hdec] at hs
            subst hs
            simp
        | some uid =>
          cases hfind : users.find? (fun x => x.id == uid) with
          | none =>
            constructor
            · intro u
              simp [get_current_user, ht, hdec, hfind]
            · intro s hs
              simp [get_current_user, ht, hdec, hfind] at hs
              subst hs
              simp
          | some cu =>
            by_cases hact : cu.is_active
            · constructor
              · intro u
                simp [get_current_user, ht, hdec, hfind, hact]
                rintro rfl
                exact hact
              · intro s hs
                simp [get_current_user, ht, hdec, hfind, hact] at hs
            · constructor
              · intro u
                simp [get_current_user, ht, hdec, hfind, hact]
                rintro rfl
                simpa using hact
              · intro s hs
                simp [get_current_user, ht, hdec, hfind, hact] at hs
                subst hs
                simp

/-- C9 witness: a token decoding to user id 7 with user 7 active resolves to
that user (iff instance), and an absent token fails with 401 "Token missing". -/
theorem c9_authenticator_resolution_witness :
    (get_current_user (some "tok") (fun t => DecodeResult.ok (some 7)) [⟨7, 1, true⟩] =
        Except.ok ⟨7, 1, true⟩ ↔
      ∃ t uid, (some "tok" : Option String) = some t ∧ t ≠ "" ∧
        (fun t => DecodeResult.ok (some 7)) t = DecodeResult.ok (some uid) ∧
        ([⟨7, 1, true⟩] : List UserModel).find? (fun x => x.id == uid) = some ⟨7, 1, true⟩ ∧
        (⟨7, 1, true⟩ : UserModel).is_active = true) ∧
    ((401, "Token missing") : Nat × String).1 = 401 ∧
      (((401, "Token missing") : Nat × String).2 = "Token missing" ∨
        ((401, "Token missing") : Nat × String).2 = "Token has expired." ∨
        ((401, "Token missing") : Nat × String).2 = "Invalid token" ∨
        ((401, "Token missing") : Nat × String).2 = "User not found or not active.") :=
  ⟨(c9_authenticator_resolution (some "tok") (fun t => DecodeResult.ok (some 7))
      [⟨7, 1, true⟩]).1 ⟨7, 1, true⟩,
   (c9_authenticator_resolution none (fun t => DecodeResult.ok (some 7))
      [⟨7, 1, true⟩]).2 (401, "Token missing") rfl⟩

/-- C10: on every successful invocation, the stored and returned info field is
the trimmed submitted text, and a whitespace-only submission is stored and
returned as absent — never as the empty string. -/
theorem c10_info_trimmed_or_null (cu : UserModel) (uid : Nat) (fn ln : String)
    (g : GenderEnum) (dob inf : String) (av : UploadFile) (db : Session) (s3 : S3State)
    (resp : UserProfileResponseSchema)
    (h : (create_user_profile cu uid fn ln g dob inf av db s3).1 =
      RouteResult.success resp) :
    resp.info = (if pyStrip inf = "" then none else some (pyStrip inf)) ∧
    resp.info ≠ some "" ∧
    ∃ p ∈ (create_user_profile cu uid fn ln g dob inf av db s3).2.1.committed,
      p.user_id = uid ∧ p.info = resp.info := by
  obtain ⟨h1, h2, h3, h4, p, hp, hp1, hp2, hp3, hp4, hp5⟩ :=
    create_success_shape cu uid fn ln g dob inf av db s3 resp h
  refine ⟨h4, ?_, p, hp, hp1, hp4⟩
  rw [h4]
  by_cases he : pyStrip inf = ""
  · simp [he]
  · simp [he]

/-- C10 witness: a whitespace-only info submission for user 7 succeeds with a
null info field in both the response and the committed row. -/
theorem c10_info_trimmed_or_null_witness :
    ((⟨1, 7, "ada", "lovelace", GenderEnum.female, ⟨1990, 5, 1⟩, none,
        "https://storage.example.com/avatars/7_avatar.jpg"⟩ :
      UserProfileResponseSchema).info =
      (if pyStrip "   " = "" then none else some (pyStrip "   "))) ∧
    ((⟨1, 7, "ada", "lovelace", GenderEnum.female, ⟨1990, 5, 1⟩, none,
        "https://storage.example.com/avatars/7_avatar.jpg"⟩ :
      UserProfileResponseSchema).info ≠ some "") ∧
    ∃ p ∈ (create_user_profile ⟨7, 1, true⟩ 7 "Ada" "Lovelace" GenderEnum.female "1990-05-01"
        "   " ⟨"a.jpg", "image/jpeg", 100, [1, 2]⟩ ⟨[], [], 1⟩ ⟨true, []⟩).2.1.committed,
      p.user_id = 7 ∧
      p.info = (⟨1, 7, "ada", "lovelace", GenderEnum.female, ⟨1990, 5, 1⟩, none,
        "https://storage.example.com/avatars/7_avatar.jpg"⟩ :
          UserProfileResponseSchema).info :=
  c10_info_trimmed_or_null ⟨7, 1, true⟩ 7 "Ada" "Lovelace" GenderEnum.female "1990-05-01"
    "   " ⟨"a.jpg", "image/jpeg", 100, [1, 2]⟩ ⟨[], [], 1⟩ ⟨true, []⟩
    ⟨1, 7, "ada", "lovelace", GenderEnum.female, ⟨1990, 5, 1⟩, none,
      "https://storage.example.com/avatars/7_avatar.jpg"⟩ (by decide)

end ProfileApp
